import Mathlib

/-!
Verification of the order lifecycle service of the Azure e-commerce platform
repository.  The definitions below are a shallow embedding of
`src/controllers/OrderController.ts`, `src/services/DatabaseService.ts`,
`src/services/ServiceBusService.ts` and `src/utils/errors.ts`.

Modelling conventions:
* Money values carried by JSON payloads are embedded as exact rationals
  (`Rat`).  The TypeScript code computes on JavaScript numbers; the exact
  embedding is the idealisation most favourable to the specification
  (it removes binary-float drift entirely), so any refutation proved here
  is independent of floating-point rounding.
* The SQL store (tables `Orders` / `OrderItems` from
  `DatabaseService.initializeSchema`) is embedded as a list of `Order`
  records, each carrying its item rows, exactly the shape
  `DatabaseService.getOrderById` assembles with its LEFT JOIN.  The
  `DECIMAL(10,2)` column conversions performed by the driver on insert are
  embedded by `sqlDecimal2`; the `UNIQUE` constraint on `orderNumber` and
  the primary key on `id` are embedded as an explicit pre-insert check that
  fails the transaction (`DatabaseService.createOrder` rolls back on any
  insert error).
* `GETUTCDATE()` / `Date.now()` / `uuidv4()` / `Math.random()` are
  environment inputs, passed in explicitly.
* A Service Bus publish is embedded as a function that either yields the
  message that was sent or fails, controlled by an environment flag
  `senderOk`; each controller catches a failed publish (mirroring the
  `try { await publish } catch (eventError) { logger.error(...) }` blocks).
* HTTP error responses are embedded as `ApiError` values carrying the
  status code produced by `src/middleware/errorHandler.ts` for the error
  class thrown by the controller (ValidationError/BadRequestError ↦ 400,
  NotFoundError ↦ 404) or written directly (the 403 branch of
  `updateOrderStatus`).
-/

/-- Order status enumeration, from the `Order` interface in
`DatabaseService.ts` (`'pending' | 'processing' | 'shipped' | 'delivered'
| 'cancelled'`). -/
inductive OrderStatus : Type
  | pending
  | processing
  | shipped
  | delivered
  | cancelled
deriving DecidableEq

/-- The string form of a status, as it appears in requests and events. -/
def OrderStatus.asString : OrderStatus → String
  | .pending => "pending"
  | .processing => "processing"
  | .shipped => "shipped"
  | .delivered => "delivered"
  | .cancelled => "cancelled"

/-- One `OrderItems` row / `OrderItem` interface member. -/
structure OrderItem : Type where
  id : String
  orderId : String
  productId : String
  productName : String
  quantity : Nat
  unitPrice : Rat
  totalPrice : Rat
deriving DecidableEq

/-- One `Orders` row together with its item rows, the shape assembled by
`DatabaseService.getOrderById`.  Timestamps are abstract ticks (`Nat`). -/
structure Order : Type where
  id : String
  customerId : String
  customerEmail : String
  orderNumber : String
  status : OrderStatus
  totalAmount : Rat
  currency : String
  shippingAddress : String
  billingAddress : String
  orderItems : List OrderItem
  createdAt : Nat
  updatedAt : Nat
deriving DecidableEq

/-- The durable state owned by `DatabaseService`: the `Orders` table with
each order's `OrderItems` rows attached. -/
structure DbState : Type where
  orders : List Order
deriving DecidableEq

/-- The verified identity attached to a request by the auth middleware
(`AuthenticatedRequest.user`). -/
structure User : Type where
  id : String
  email : String
  roles : List String

/-- An HTTP error outcome: the status code assigned by
`src/middleware/errorHandler.ts` to the thrown error class (or written
directly by the controller), plus the error message. -/
structure ApiError : Type where
  status : Nat
  message : String
deriving DecidableEq

/-- The event payload interface of `ServiceBusService.ts` (`OrderEvent`). -/
structure OrderEvent : Type where
  orderId : String
  customerId : String
  orderNumber : String
  totalAmount : Option Rat
  currency : Option String
  oldStatus : Option String
  newStatus : Option String
  timestamp : String
deriving DecidableEq

/-- A message accepted by the Service Bus topic sender, reduced to the
fields the claims mention (event-type tag and payload). -/
structure PublishedMessage : Type where
  eventType : String
  data : OrderEvent
deriving DecidableEq

/-- `ServiceBusService.publishOrderEvent`: sends one tagged message to the
order-events topic, or throws.  `senderOk` is the environment flag for
whether the broker send succeeds. -/
def ServiceBusService.publishOrderEvent (senderOk : Bool) (eventType : String)
    (data : OrderEvent) : Except String PublishedMessage :=
  if senderOk then Except.ok ⟨eventType, data⟩
  else Except.error "Failed to send message"

/-- Conversion of a JavaScript number to a `DECIMAL(10,2)` SQL value, as
performed by the mssql driver for every `sql.Decimal(10, 2)` input
(`Math.round(value * 100) / 100`): round half up at the second decimal. -/
def sqlDecimal2 (q : Rat) : Rat :=
  ((Int.floor (q * 100 + 1 / 2) : Int) : Rat) / 100

/-- `DatabaseService.getOrderById`: `SELECT ... WHERE o.id = @orderId` with
the items joined; `null` when no row matches. -/
def DatabaseService.getOrderById (db : DbState) (orderId : String) : Option Order :=
  db.orders.find? (fun o => o.id == orderId)

/-- The per-item `INSERT INTO OrderItems` of `DatabaseService.createOrder`:
the item row is keyed to the created order and its money columns pass
through the `DECIMAL(10,2)` conversion. -/
def DatabaseService.storeItem (newId : String) (it : OrderItem) : OrderItem :=
  { it with
    orderId := newId
    unitPrice := sqlDecimal2 it.unitPrice
    totalPrice := sqlDecimal2 it.totalPrice }

/-- The argument record of `DatabaseService.createOrder`
(`Omit<Order, 'id' | 'createdAt' | 'updatedAt'>`). -/
structure NewOrderData : Type where
  customerId : String
  customerEmail : String
  orderNumber : String
  status : OrderStatus
  totalAmount : Rat
  currency : String
  shippingAddress : String
  billingAddress : String
  orderItems : List OrderItem

/-- The order row committed by `DatabaseService.createOrder` for argument
`data` (the shape the post-commit `getOrderById` re-read returns): fresh
id, `DECIMAL(10,2)`-converted money columns, both timestamps set to the
insert time. -/
def DatabaseService.storedOrder (newId : String) (now : Nat) (data : NewOrderData) : Order :=
  { id := newId
    customerId := data.customerId
    customerEmail := data.customerEmail
    orderNumber := data.orderNumber
    status := data.status
    totalAmount := sqlDecimal2 data.totalAmount
    currency := data.currency
    shippingAddress := data.shippingAddress
    billingAddress := data.billingAddress
    orderItems := data.orderItems.map (DatabaseService.storeItem newId)
    createdAt := now
    updatedAt := now }

/-- `DatabaseService.createOrder`, continued: the transaction either fails
on the constraint check (whole create rolled back, state unchanged) or
commits the order row plus item rows and returns the re-read order. -/
def DatabaseService.createOrder (db : DbState) (newId : String) (now : Nat)
    (data : NewOrderData) : Except String (DbState × Order) :=
  if db.orders.any (fun o => o.orderNumber == data.orderNumber || o.id == newId) then
    Except.error "Violation of UNIQUE KEY constraint"
  else
    Except.ok (⟨db.orders ++ [DatabaseService.storedOrder newId now data]⟩,
      DatabaseService.storedOrder newId now data)

/-- The row update performed by `DatabaseService.updateOrderStatus`
(`UPDATE Orders SET status = @status, updatedAt = GETUTCDATE() WHERE id =
@orderId`), as a function on a single row. -/
def DatabaseService.updOne (orderId : String) (status : OrderStatus) (now : Nat)
    (o : Order) : Order :=
  if o.id == orderId then { o with status := status, updatedAt := now } else o

/-- `DatabaseService.updateOrderStatus`: the single-row `UPDATE` (matching
zero rows when the id is absent) followed by a re-fetch of the full
order, which is `null` for an unknown id. -/
def DatabaseService.updateOrderStatus (db : DbState) (orderId : String)
    (status : OrderStatus) (now : Nat) : DbState × Option Order :=
  let db' : DbState := ⟨db.orders.map (DatabaseService.updOne orderId status now)⟩
  (db', DatabaseService.getOrderById db' orderId)

/-- Insert one order into a list sorted by `createdAt` descending, keeping
the list sorted (helper for the embedding of `ORDER BY createdAt DESC`). -/
def insertDescByCreatedAt (o : Order) : List Order → List Order
  | [] => [o]
  | x :: xs =>
    if o.createdAt ≤ x.createdAt then x :: insertDescByCreatedAt o xs
    else o :: x :: xs

/-- Sort a list of orders by `createdAt` descending (embedding of the SQL
`ORDER BY createdAt DESC`). -/
def sortDescByCreatedAt : List Order → List Order
  | [] => []
  | x :: xs => insertDescByCreatedAt x (sortDescByCreatedAt xs)

/-- `DatabaseService.getOrdersByCustomer`: page query
(`WHERE customerId = @customerId ORDER BY createdAt DESC OFFSET @offset
ROWS FETCH NEXT @pageSize ROWS ONLY`, `offset = (page-1)*pageSize`, items
loaded per returned order) plus the independent `COUNT(*)` query over the
same filter. -/
def DatabaseService.getOrdersByCustomer (db : DbState) (customerId : String)
    (page pageSize : Nat) : List Order × Nat :=
  let matching := db.orders.filter (fun o => o.customerId == customerId)
  (((sortDescByCreatedAt matching).drop ((page - 1) * pageSize)).take pageSize,
    matching.length)

/-- A raw JSON order item as submitted in the request body (`orderItems`
entries before validation); absent keys are `none`, numeric values are the
exact rationals denoted by the JSON literals. -/
structure RawItem : Type where
  productId : Option String
  productName : Option String
  quantity : Option Rat
  unitPrice : Option Rat

/-- A raw `POST /orders` JSON body before validation. -/
structure RawBody : Type where
  customerId : Option String
  customerEmail : Option String
  shippingAddress : Option String
  billingAddress : Option String
  currency : Option String
  orderItems : Option (List RawItem)

/-- An order item accepted by `createOrderSchema`. -/
structure VItem : Type where
  productId : String
  productName : String
  quantity : Nat
  unitPrice : Rat

/-- A body accepted by `createOrderSchema` (with the currency default
applied). -/
structure VBody : Type where
  customerId : String
  customerEmail : String
  shippingAddress : String
  billingAddress : String
  currency : String
  orderItems : List VItem

/-- Simplified model of Joi's `.email()` format check: exactly one `@`,
a nonempty local part, and a nonempty domain containing a dot after the
`@`.  The claims under verification do not depend on the finer points of
the real RFC grammar. -/
def isEmailLike (s : String) : Bool :=
  (s.data.filter (fun c => c == '@')).length == 1 &&
    (match s.data.span (fun c => !(c == '@')) with
     | (before, after) =>
       !before.isEmpty && after.length > 1 && (after.any (fun c => c == '.')))

/-- Validation of one `orderItems` entry, per `createOrderSchema`:
`productId`/`productName` required strings, `quantity` a required integer
`≥ 1`, `unitPrice` a required positive number.  Error messages abbreviate
Joi's generated text. -/
def validateOrderItem (it : RawItem) : Except String VItem :=
  match it.productId with
  | none => Except.error "productId is required"
  | some pid =>
    match it.productName with
    | none => Except.error "productName is required"
    | some pname =>
      match it.quantity with
      | none => Except.error "quantity is required"
      | some q =>
        if q.den ≠ 1 then Except.error "quantity must be an integer"
        else if q < 1 then Except.error "quantity must be greater than or equal to 1"
        else
          match it.unitPrice with
          | none => Except.error "unitPrice is required"
          | some p =>
            if p ≤ 0 then Except.error "unitPrice must be a positive number"
            else Except.ok ⟨pid, pname, q.num.toNat, p⟩

/-- Validation of the `orderItems` array, first error wins (Joi's default
`abortEarly`). -/
def validateOrderItems : List RawItem → Except String (List VItem)
  | [] => Except.ok []
  | it :: rest =>
    match validateOrderItem it with
    | Except.error m => Except.error m
    | Except.ok v =>
      match validateOrderItems rest with
      | Except.error m => Except.error m
      | Except.ok vs => Except.ok (v :: vs)

/-- `createOrderSchema.validate`: key checks in schema order with Joi's
default first-error-wins behaviour.  Note that `customerId` and
`customerEmail` are declared `required()` in the schema even though the
controller takes the persisted values from the token. -/
def createOrderSchema (b : RawBody) : Except String VBody :=
  match b.customerId with
  | none => Except.error "customerId is required"
  | some cid =>
    match b.customerEmail with
    | none => Except.error "customerEmail is required"
    | some cem =>
      if !isEmailLike cem then Except.error "customerEmail must be a valid email"
      else
        match b.shippingAddress with
        | none => Except.error "shippingAddress is required"
        | some sa =>
          match b.billingAddress with
          | none => Except.error "billingAddress is required"
          | some ba =>
            let cur := b.currency.getD "USD"
            if cur.length ≠ 3 then
              Except.error "currency length must be 3 characters long"
            else
              match b.orderItems with
              | none => Except.error "orderItems is required"
              | some its =>
                if its.length < 1 then
                  Except.error "orderItems must contain at least 1 items"
                else
                  match validateOrderItems its with
                  | Except.error m => Except.error m
                  | Except.ok vs => Except.ok ⟨cid, cem, sa, ba, cur, vs⟩

/-- `updateOrderStatusSchema.validate`: `status` required, one of the five
enumerated strings. -/
def updateOrderStatusSchema (rawStatus : Option String) : Except String OrderStatus :=
  match rawStatus with
  | none => Except.error "status is required"
  | some s =>
    if s = "pending" then Except.ok OrderStatus.pending
    else if s = "processing" then Except.ok OrderStatus.processing
    else if s = "shipped" then Except.ok OrderStatus.shipped
    else if s = "delivered" then Except.ok OrderStatus.delivered
    else if s = "cancelled" then Except.ok OrderStatus.cancelled
    else Except.error "status must be one of pending, processing, shipped, delivered, cancelled"

/-- `queryParamsSchema.validate` on `page`: integer `≥ 1`, default 1. -/
def validatePage : Option Rat → Except String Nat
  | none => Except.ok 1
  | some q =>
    if q.den ≠ 1 then Except.error "page must be an integer"
    else if q < 1 then Except.error "page must be greater than or equal to 1"
    else Except.ok q.num.toNat

/-- `queryParamsSchema.validate` on `pageSize`: integer in `1..100`,
default 10. -/
def validatePageSize : Option Rat → Except String Nat
  | none => Except.ok 10
  | some q =>
    if q.den ≠ 1 then Except.error "pageSize must be an integer"
    else if q < 1 then Except.error "pageSize must be greater than or equal to 1"
    else if q > 100 then Except.error "pageSize must be less than or equal to 100"
    else Except.ok q.num.toNat

/-- `queryParamsSchema.validate` on the whole query object. -/
def queryParamsSchema (page pageSize : Option Rat) : Except String (Nat × Nat) :=
  match validatePage page with
  | Except.error m => Except.error m
  | Except.ok p =>
    match validatePageSize pageSize with
    | Except.error m => Except.error m
    | Except.ok ps => Except.ok (p, ps)

/-- Environment inputs consumed by `OrderController.createOrder`:
`Date.now()` (`nowMs`) and the `Math.random()` suffix for the order
number, the per-item `uuidv4()` values, the `NEWID()` id and
`GETUTCDATE()` tick chosen by the store, and the event timestamp
(`new Date().toISOString()`). -/
structure CreateEnv : Type where
  nowMs : Nat
  randSuffix : String
  itemIds : Nat → String
  orderId : String
  now : Nat
  isoNow : String

/-- The order-number template of `OrderController.createOrder`:
`ORD-${Date.now()}-${random suffix}`. -/
def makeOrderNumber (nowMs : Nat) (randSuffix : String) : String :=
  "ORD-" ++ toString nowMs ++ "-" ++ randSuffix

/-- The item mapping of `OrderController.createOrder`: each validated item
gets a fresh uuid, an empty `orderId` placeholder, and a computed line
total `quantity * unitPrice`. -/
def buildOrderItems (itemIds : Nat → String) : Nat → List VItem → List OrderItem
  | _, [] => []
  | i, it :: rest =>
    { id := itemIds i
      orderId := ""
      productId := it.productId
      productName := it.productName
      quantity := it.quantity
      unitPrice := it.unitPrice
      totalPrice := (it.quantity : Rat) * it.unitPrice } :: buildOrderItems itemIds (i + 1) rest

/-- The order-total reduction of `OrderController.createOrder`
(`orderItems.reduce((sum, item) => sum + item.totalPrice, 0)`). -/
def sumTotalPrices (items : List OrderItem) : Rat :=
  items.foldl (fun s it => s + it.totalPrice) 0

/-- The quantity-times-price summation named by the specification
(`Σ(item.quantity * item.unitPrice)`). -/
def sumLineTotals (items : List OrderItem) : Rat :=
  items.foldl (fun s it => s + (it.quantity : Rat) * it.unitPrice) 0

/-- The catch block around every controller publish: a failed publish is
logged and dropped, a successful one yields the sent message. -/
def attemptPublish (senderOk : Bool) (eventType : String) (data : OrderEvent) :
    List PublishedMessage :=
  match ServiceBusService.publishOrderEvent senderOk eventType data with
  | Except.ok m => [m]
  | Except.error _ => []

/-- `OrderController.getOrders`: validate query params, require a caller
id from the token (absent or empty is falsy), then page through the
caller's own orders; `totalPages` is `Math.ceil(totalCount / pageSize)`. -/
structure ListResult : Type where
  orders : List Order
  page : Nat
  pageSize : Nat
  totalCount : Nat
  totalPages : Nat
deriving DecidableEq

/-- `OrderController.getOrders` (read-only: the store state is not
modified). -/
def OrderController.getOrders (db : DbState) (user : Option User)
    (rawPage rawPageSize : Option Rat) : Except ApiError ListResult :=
  match queryParamsSchema rawPage rawPageSize with
  | Except.error m => Except.error ⟨400, m⟩
  | Except.ok (page, pageSize) =>
    match user with
    | none => Except.error ⟨400, "Customer ID not found in token"⟩
    | some u =>
      if u.id = "" then Except.error ⟨400, "Customer ID not found in token"⟩
      else
        Except.ok ⟨(DatabaseService.getOrdersByCustomer db u.id page pageSize).1,
          page, pageSize, (DatabaseService.getOrdersByCustomer db u.id page pageSize).2,
          ((DatabaseService.getOrdersByCustomer db u.id page pageSize).2 + pageSize - 1) / pageSize⟩

/-- `OrderController.getOrderById` (read-only): not-found both when no
order has the id and when the order exists but the non-admin caller is
not its owner — the two cases produce the identical `NotFoundError`. -/
def OrderController.getOrderById (db : DbState) (user : Option User)
    (orderId : String) : Except ApiError Order :=
  match user with
  | none => Except.error ⟨400, "Customer ID not found in token"⟩
  | some u =>
    if u.id = "" then Except.error ⟨400, "Customer ID not found in token"⟩
    else
      match DatabaseService.getOrderById db orderId with
      | none => Except.error ⟨404, "Order not found"⟩
      | some o =>
        if !(u.roles.contains "admin") && o.customerId ≠ u.id then
          Except.error ⟨404, "Order not found"⟩
        else Except.ok o

/-- `OrderController.createOrder`: validate the body, take the customer id
and email from the token (empty strings are falsy in the TypeScript
guard), generate the order number, compute the line totals and the order
total, persist atomically, then best-effort publish `order.created`.
Returns the re-read created order with HTTP 201 on success. -/
def OrderController.createOrder (db : DbState) (user : Option User)
    (body : RawBody) (env : CreateEnv) (senderOk : Bool) :
    DbState × List PublishedMessage × Except ApiError Order :=
  match createOrderSchema body with
  | Except.error m => (db, [], Except.error ⟨400, m⟩)
  | Except.ok v =>
    match user with
    | none => (db, [], Except.error ⟨400, "Customer information not found in token"⟩)
    | some u =>
      if u.id = "" ∨ u.email = "" then
        (db, [], Except.error ⟨400, "Customer information not found in token"⟩)
      else
        match DatabaseService.createOrder db env.orderId env.now
          ⟨u.id, u.email, makeOrderNumber env.nowMs env.randSuffix,
            OrderStatus.pending, sumTotalPrices (buildOrderItems env.itemIds 0 v.orderItems),
            v.currency, v.shippingAddress, v.billingAddress,
            buildOrderItems env.itemIds 0 v.orderItems⟩ with
        | Except.error _ => (db, [], Except.error ⟨500, "Failed to create order"⟩)
        | Except.ok (db', created) =>
          (db',
            attemptPublish senderOk "order.created"
              ⟨created.id, created.customerId, created.orderNumber,
                some created.totalAmount, some created.currency, none, none, env.isoNow⟩,
            Except.ok created)

/-- `OrderController.updateOrderStatus`: the admin-role check is the first
statement and answers 403 directly, before the body is validated and
before any store access; then the status body is validated, the row is
updated, a missing id yields `NotFoundError`, and `order.status_changed`
is best-effort published. -/
def OrderController.updateOrderStatus (db : DbState) (user : Option User)
    (orderId : String) (rawStatus : Option String) (now : Nat) (isoNow : String)
    (senderOk : Bool) : DbState × List PublishedMessage × Except ApiError Order :=
  if !(match user with
      | some u => u.roles.contains "admin"
      | none => false) then
    (db, [], Except.error ⟨403, "Admin access required"⟩)
  else
    match updateOrderStatusSchema rawStatus with
    | Except.error m => (db, [], Except.error ⟨400, m⟩)
    | Except.ok st =>
      match (DatabaseService.updateOrderStatus db orderId st now).2 with
      | none => ((DatabaseService.updateOrderStatus db orderId st now).1, [],
          Except.error ⟨404, "Order not found"⟩)
      | some upd =>
        ((DatabaseService.updateOrderStatus db orderId st now).1,
          attemptPublish senderOk "order.status_changed"
            ⟨upd.id, upd.customerId, upd.orderNumber, none, none,
              some "unknown", some st.asString, isoNow⟩,
          Except.ok upd)

/-- `OrderController.cancelOrder`: require a caller id, fetch the order,
answer the identical not-found for a missing order and for an order owned
by someone else (non-admin caller), refuse already-cancelled and
shipped/delivered orders with `BadRequestError`, otherwise set the status
to `cancelled` and best-effort publish `order.cancelled`.  The success
body is the re-fetched order (an `Option`, mirroring
`res.json(updatedOrder)` after the `updatedOrder!` uses inside the
publish `try` block). -/
def OrderController.cancelOrder (db : DbState) (user : Option User)
    (orderId : String) (now : Nat) (isoNow : String) (senderOk : Bool) :
    DbState × List PublishedMessage × Except ApiError (Option Order) :=
  match user with
  | none => (db, [], Except.error ⟨400, "Customer ID not found in token"⟩)
  | some u =>
    if u.id = "" then (db, [], Except.error ⟨400, "Customer ID not found in token"⟩)
    else
      match DatabaseService.getOrderById db orderId with
      | none => (db, [], Except.error ⟨404, "Order not found"⟩)
      | some cur =>
        if !(u.roles.contains "admin") && cur.customerId ≠ u.id then
          (db, [], Except.error ⟨404, "Order not found"⟩)
        else if cur.status = OrderStatus.cancelled then
          (db, [], Except.error ⟨400, "Order is already cancelled"⟩)
        else if cur.status = OrderStatus.shipped ∨ cur.status = OrderStatus.delivered then
          (db, [], Except.error ⟨400, "Cannot cancel shipped or delivered orders"⟩)
        else
          match (DatabaseService.updateOrderStatus db orderId OrderStatus.cancelled now).2 with
          | some upd =>
            ((DatabaseService.updateOrderStatus db orderId OrderStatus.cancelled now).1,
              attemptPublish senderOk "order.cancelled"
                ⟨upd.id, upd.customerId, upd.orderNumber, some upd.totalAmount,
                  none, none, none, isoNow⟩,
              Except.ok (some upd))
          | none =>
            ((DatabaseService.updateOrderStatus db orderId OrderStatus.cancelled now).1,
              [], Except.ok none)

/-- One state-mutating request against the service, as routed by
`OrderController.initializeRoutes` (the two GET routes are read-only and
take no part in state evolution). -/
inductive ClientOp : Type
  | create (user : Option User) (body : RawBody) (env : CreateEnv) (senderOk : Bool)
  | setStatus (user : Option User) (orderId : String) (rawStatus : Option String)
      (now : Nat) (isoNow : String) (senderOk : Bool)
  | cancel (user : Option User) (orderId : String) (now : Nat) (isoNow : String)
      (senderOk : Bool)

/-- The store state after one routed mutating request. -/
def applyOp (db : DbState) : ClientOp → DbState
  | ClientOp.create user body env senderOk =>
    (OrderController.createOrder db user body env senderOk).1
  | ClientOp.setStatus user orderId rawStatus now isoNow senderOk =>
    (OrderController.updateOrderStatus db user orderId rawStatus now isoNow senderOk).1
  | ClientOp.cancel user orderId now isoNow senderOk =>
    (OrderController.cancelOrder db user orderId now isoNow senderOk).1

/-- The store state after a serialised sequence of requests (the SQL
store serialises the conflicting writes of concurrent requests). -/
def runOps (db : DbState) : List ClientOp → DbState
  | [] => db
  | op :: rest => runOps (applyOp db op) rest

/-- Pairwise distinctness of the order numbers in the store (`orderNumber
NVARCHAR(50) UNIQUE NOT NULL`). -/
def ordersUnique (db : DbState) : Prop :=
  db.orders.Pairwise (fun a b => a.orderNumber ≠ b.orderNumber)

/-- Boolean frame check used for the item-immutability claim: every order
present before an operation is still present afterwards with the same
identity, items, money fields, addresses, customer fields and creation
time (only `status` and `updatedAt` may differ). -/
def itemsPreserved (db db' : DbState) : Bool :=
  db.orders.all (fun o => db'.orders.any (fun o' =>
    decide (o'.id = o.id ∧ o'.orderItems = o.orderItems ∧
      o'.totalAmount = o.totalAmount ∧ o'.currency = o.currency ∧
      o'.shippingAddress = o.shippingAddress ∧ o'.billingAddress = o.billingAddress ∧
      o'.customerId = o.customerId ∧ o'.customerEmail = o.customerEmail ∧
      o'.orderNumber = o.orderNumber ∧ o'.createdAt = o.createdAt)))

/-! Concrete sample data used by witnesses and counterexamples. -/

/-- A sample stored item row. -/
def sampleItem : OrderItem :=
  ⟨"it-1", "ord-1", "p-1", "Widget", 2, 10, 20⟩

/-- A sample stored pending order owned by customer `cust-b`. -/
def sampleOrder : Order :=
  { id := "ord-1"
    customerId := "cust-b"
    customerEmail := "b@shop.co"
    orderNumber := "ORD-5-AAAAA"
    status := OrderStatus.pending
    totalAmount := 20
    currency := "USD"
    shippingAddress := "1 B St"
    billingAddress := "1 B St"
    orderItems := [sampleItem]
    createdAt := 5
    updatedAt := 5 }

/-- A store holding only `sampleOrder`. -/
def sampleDb : DbState := ⟨[sampleOrder]⟩

/-- A non-admin caller distinct from `sampleOrder`'s owner. -/
def userA : User := ⟨"cust-a", "a@shop.co", ["customer"]⟩

/-- The owner of `sampleOrder`, without the admin role. -/
def userB : User := ⟨"cust-b", "b@shop.co", ["customer"]⟩

/-- An admin caller. -/
def adminUser : User := ⟨"adm-1", "admin@shop.co", ["admin"]⟩

/-- Claim C4: for every caller whose role set does not include `admin`,
update-order-status answers 403 with no store mutation and no published
event, for every order id and request body; moreover the response does
not depend on the store state at all (the role check happens before any
store access). -/
theorem updateOrderStatus_nonAdmin_forbidden (db : DbState) (u : User)
    (orderId : String) (rawStatus : Option String) (now : Nat) (isoNow : String)
    (senderOk : Bool) (h : u.roles.contains "admin" = false) :
    OrderController.updateOrderStatus db (some u) orderId rawStatus now isoNow senderOk
      = (db, [], Except.error ⟨403, "Admin access required"⟩)
    ∧ ∀ db₂ : DbState,
        (OrderController.updateOrderStatus db₂ (some u) orderId rawStatus now isoNow senderOk).2.2
          = (OrderController.updateOrderStatus db (some u) orderId rawStatus now isoNow senderOk).2.2 := by
  have hmem : ¬ ("admin" ∈ u.roles) := by simpa using h
  constructor
  · unfold OrderController.updateOrderStatus
    simp [hmem]
  · intro db₂
    unfold OrderController.updateOrderStatus
    simp [hmem]

/-- Witness for C4 at a concrete non-admin caller and populated store. -/
theorem updateOrderStatus_nonAdmin_forbidden_witness :
    OrderController.updateOrderStatus sampleDb (some userB) "ord-1" (some "shipped") 9 "t" true
      = (sampleDb, [], Except.error ⟨403, "Admin access required"⟩) :=
  (updateOrderStatus_nonAdmin_forbidden sampleDb userB "ord-1" (some "shipped") 9 "t" true
    (by decide)).1

/-- Claim C6: for a non-admin caller, get-order-by-id on an order owned by
a different customer returns exactly the same not-found outcome as a call
with an id matching no order. -/
theorem getOrderById_foreign_indistinguishable_from_absent (db : DbState)
    (a : User) (oidForeign oidMissing : String) (oB : Order)
    (hnonadmin : a.roles.contains "admin" = false)
    (haid : a.id ≠ "")
    (hfound : DatabaseService.getOrderById db oidForeign = some oB)
    (howner : oB.customerId ≠ a.id)
    (hmissing : DatabaseService.getOrderById db oidMissing = none) :
    OrderController.getOrderById db (some a) oidForeign
        = OrderController.getOrderById db (some a) oidMissing
    ∧ OrderController.getOrderById db (some a) oidForeign
        = Except.error ⟨404, "Order not found"⟩ := by
  have hmem : ¬ ("admin" ∈ a.roles) := by simpa using hnonadmin
  have h1 : OrderController.getOrderById db (some a) oidForeign
      = Except.error ⟨404, "Order not found"⟩ := by
    unfold OrderController.getOrderById
    simp [haid, hfound, hmem, howner]
  have h2 : OrderController.getOrderById db (some a) oidMissing
      = Except.error ⟨404, "Order not found"⟩ := by
    unfold OrderController.getOrderById
    simp [haid, hmissing]
  exact ⟨h1.trans h2.symm, h1⟩

/-- Witness for C6: customer `cust-a` asking for `cust-b`'s order gets the
very same response as asking for an id that matches nothing. -/
theorem getOrderById_foreign_witness :
    OrderController.getOrderById sampleDb (some userA) "ord-1"
      = OrderController.getOrderById sampleDb (some userA) "no-such-id" :=
  (getOrderById_foreign_indistinguishable_from_absent sampleDb userA "ord-1"
    "no-such-id" sampleOrder (by decide) (by decide) (by decide) (by decide)
    (by decide)).1

/-- A sample cancelled order owned by `cust-b`. -/
def cancelledOrder : Order :=
  { sampleOrder with
    id := "ord-2"
    orderNumber := "ORD-6-BBBBB"
    status := OrderStatus.cancelled }

/-- A sample shipped order owned by `cust-b`. -/
def shippedOrder : Order :=
  { sampleOrder with
    id := "ord-3"
    orderNumber := "ORD-7-CCCCC"
    status := OrderStatus.shipped }

/-- A store holding one cancelled and one shipped order. -/
def terminalDb : DbState := ⟨[cancelledOrder, shippedOrder]⟩

/-- Claim C2: cancelling an order whose status is `cancelled`, `shipped`
or `delivered` fails with a 400 domain error — "Order is already
cancelled" in the cancelled case, "Cannot cancel shipped or delivered
orders" otherwise — and returns the store unchanged with no published
event. -/
theorem cancelOrder_terminal_rejected (db : DbState) (u : User) (orderId : String)
    (now : Nat) (isoNow : String) (senderOk : Bool) (o : Order)
    (hfound : DatabaseService.getOrderById db orderId = some o)
    (huid : u.id ≠ "")
    (hvis : u.roles.contains "admin" = true ∨ o.customerId = u.id) :
    (o.status = OrderStatus.cancelled →
      OrderController.cancelOrder db (some u) orderId now isoNow senderOk
        = (db, [], Except.error ⟨400, "Order is already cancelled"⟩))
    ∧ (o.status = OrderStatus.shipped ∨ o.status = OrderStatus.delivered →
      OrderController.cancelOrder db (some u) orderId now isoNow senderOk
        = (db, [], Except.error ⟨400, "Cannot cancel shipped or delivered orders"⟩)) := by
  have hvis' : "admin" ∈ u.roles ∨ o.customerId = u.id := by
    rcases hvis with hadm | hown
    · exact Or.inl (by simpa using hadm)
    · exact Or.inr hown
  unfold OrderController.cancelOrder
  refine ⟨fun hc => ?_, fun hsd => ?_⟩
  · rcases hvis' with hadm | hown
    · simp [hfound, huid, hadm, hc]
    · simp [hfound, huid, hown, hc]
  · rcases hsd with h | h
    · rcases hvis' with hadm | hown
      · simp [hfound, huid, hadm, h]
      · simp [hfound, huid, hown, h]
    · rcases hvis' with hadm | hown
      · simp [hfound, huid, hadm, h]
      · simp [hfound, huid, hown, h]

/-- Witness for C2: the owner cancelling an already-cancelled order, and
the owner cancelling a shipped order, both leave the store untouched and
get the respective 400 messages. -/
theorem cancelOrder_terminal_rejected_witness :
    OrderController.cancelOrder terminalDb (some userB) "ord-2" 9 "t" true
      = (terminalDb, [], Except.error ⟨400, "Order is already cancelled"⟩)
    ∧ OrderController.cancelOrder terminalDb (some userB) "ord-3" 9 "t" true
      = (terminalDb, [], Except.error ⟨400, "Cannot cancel shipped or delivered orders"⟩) :=
  ⟨(cancelOrder_terminal_rejected terminalDb userB "ord-2" 9 "t" true cancelledOrder
      (by decide) (by decide) (Or.inr (by decide))).1 (by decide),
   (cancelOrder_terminal_rejected terminalDb userB "ord-3" 9 "t" true shippedOrder
      (by decide) (by decide) (Or.inr (by decide))).2 (Or.inl (by decide))⟩

/-- A request body for a successful creation (note the schema-required
`customerId`/`customerEmail` keys; the persisted values come from the
token, not from here). -/
def okBody : RawBody :=
  { customerId := some "cust-x"
    customerEmail := some "x@shop.co"
    shippingAddress := some "2 C St"
    billingAddress := some "2 C St"
    currency := none
    orderItems := some [⟨some "p-2", some "Gadget", some 2, some 10⟩] }

/-- Environment inputs for the sample creation. -/
def okEnv : CreateEnv := ⟨44, "ZZZZZ", fun i => "item-" ++ toString i, "ord-new", 8, "ts1"⟩

/-- The order `okBody`/`okEnv` creates for caller `userB` on an empty
store. -/
def okCreatedOrder : Order :=
  { id := "ord-new"
    customerId := "cust-b"
    customerEmail := "b@shop.co"
    orderNumber := "ORD-44-ZZZZZ"
    status := OrderStatus.pending
    totalAmount := 20
    currency := "USD"
    shippingAddress := "2 C St"
    billingAddress := "2 C St"
    orderItems := [⟨"item-0", "ord-new", "p-2", "Gadget", 2, 10, 20⟩]
    createdAt := 8
    updatedAt := 8 }

/-- Claim C3: for create, update-status and cancel, a thrown notifier
publish is caught and swallowed: the resulting store state and the HTTP
response are identical whether the publish succeeds or throws.  In
particular, the concrete creation of `okCreatedOrder` still returns the
created order (HTTP 201) when the publish throws. -/
theorem publish_failure_swallowed :
    (∀ db user body env,
      (OrderController.createOrder db user body env false).1
          = (OrderController.createOrder db user body env true).1
      ∧ (OrderController.createOrder db user body env false).2.2
          = (OrderController.createOrder db user body env true).2.2)
    ∧ (∀ db user orderId rawStatus now isoNow,
      (OrderController.updateOrderStatus db user orderId rawStatus now isoNow false).1
          = (OrderController.updateOrderStatus db user orderId rawStatus now isoNow true).1
      ∧ (OrderController.updateOrderStatus db user orderId rawStatus now isoNow false).2.2
          = (OrderController.updateOrderStatus db user orderId rawStatus now isoNow true).2.2)
    ∧ (∀ db user orderId now isoNow,
      (OrderController.cancelOrder db user orderId now isoNow false).1
          = (OrderController.cancelOrder db user orderId now isoNow true).1
      ∧ (OrderController.cancelOrder db user orderId now isoNow false).2.2
          = (OrderController.cancelOrder db user orderId now isoNow true).2.2)
    ∧ (OrderController.createOrder ⟨[]⟩ (some userB) okBody okEnv false).2.2
        = Except.ok okCreatedOrder := by
  have hem : isEmailLike "x@shop.co" = true := by decide
  refine ⟨?_, ?_, ?_, ?_⟩
  · intro db user body env
    unfold OrderController.createOrder
    constructor
    · repeat' split <;> try rfl
    · repeat' split <;> try rfl
  · intro db user orderId rawStatus now isoNow
    unfold OrderController.updateOrderStatus
    constructor
    · repeat' split <;> try rfl
    · repeat' split <;> try rfl
  · intro db user orderId now isoNow
    unfold OrderController.cancelOrder
    constructor
    · repeat' split <;> try rfl
    · repeat' split <;> try rfl
  · norm_num [OrderController.createOrder, createOrderSchema, hem,
      validateOrderItems, validateOrderItem, DatabaseService.createOrder,
      DatabaseService.storedOrder,
      DatabaseService.storeItem, sqlDecimal2, buildOrderItems, sumTotalPrices,
      attemptPublish, ServiceBusService.publishOrderEvent, makeOrderNumber,
      okBody, okEnv, okCreatedOrder, userB,
      (by decide : ("USD" : String).length = 3),
      (by decide : ("ORD-" ++ toString (44 : Nat) ++ "-" ++ "ZZZZZ" : String) = "ORD-44-ZZZZZ"),
      (by decide : ¬ (("cust-b" : String) = "" ∨ ("b@shop.co" : String) = "")),
      (by decide : ("item-" ++ toString (0 : Nat) : String) = "item-0"),
      (by decide : Int.toNat 2 = 2)]

/-- The row update never changes the row id. -/
theorem DatabaseService.updOne_id (orderId : String) (st : OrderStatus) (now : Nat)
    (o : Order) : (DatabaseService.updOne orderId st now o).id = o.id := by
  unfold DatabaseService.updOne
  split <;> rfl

/-- Re-fetching after the row update finds exactly the updated image of
the row found before the update. -/
theorem find_map_updOne (orderId : String) (st : OrderStatus) (now : Nat)
    (l : List Order) :
    (l.map (DatabaseService.updOne orderId st now)).find? (fun o => o.id == orderId)
      = (l.find? (fun o => o.id == orderId)).map (DatabaseService.updOne orderId st now) := by
  induction l with
  | nil => rfl
  | cons x xs ih =>
    simp only [List.map_cons, List.find?_cons, DatabaseService.updOne_id]
    cases hx : (x.id == orderId) with
    | true => simp
    | false => simpa using ih

/-- A row update matching no row leaves the table unchanged. -/
theorem map_updOne_of_not_found (orderId : String) (st : OrderStatus) (now : Nat)
    (l : List Order) (h : l.find? (fun o => o.id == orderId) = none) :
    l.map (DatabaseService.updOne orderId st now) = l := by
  induction l with
  | nil => rfl
  | cons x xs ih =>
    rw [List.find?_cons] at h
    cases hx : (x.id == orderId) with
    | true => rw [hx] at h; cases h
    | false =>
      rw [hx] at h
      simp only [List.map_cons, ih h]
      unfold DatabaseService.updOne
      rw [hx]
      simp

/-- The status body built from a status string round-trips through the
schema. -/
theorem updateOrderStatusSchema_asString (st : OrderStatus) :
    updateOrderStatusSchema (some st.asString) = Except.ok st := by
  cases st <;> rfl

/-- Claim C8: for an admin caller, set-status accepts any enumerated
target status with no check of the current status (the order may hold any
status, terminal or not): an unknown order id yields the 404 not-found
error with the store unchanged, and for an existing order the new status
and the updated timestamp are persisted and returned. -/
theorem updateOrderStatus_admin_any_transition (db : DbState) (u : User)
    (orderId : String) (st : OrderStatus) (now : Nat) (isoNow : String)
    (senderOk : Bool) (hadmin : u.roles.contains "admin" = true) :
    (DatabaseService.getOrderById db orderId = none →
      OrderController.updateOrderStatus db (some u) orderId (some st.asString) now isoNow senderOk
        = (db, [], Except.error ⟨404, "Order not found"⟩))
    ∧ (∀ o, DatabaseService.getOrderById db orderId = some o →
        ∃ o', (OrderController.updateOrderStatus db (some u) orderId
                (some st.asString) now isoNow senderOk).2.2 = Except.ok o'
          ∧ o'.status = st ∧ o'.updatedAt = now ∧ o'.id = o.id
          ∧ o'.orderItems = o.orderItems
          ∧ DatabaseService.getOrderById
              (OrderController.updateOrderStatus db (some u) orderId
                (some st.asString) now isoNow senderOk).1 orderId = some o') := by
  have hfetch :
      (DatabaseService.updateOrderStatus db orderId st now).2
        = (DatabaseService.getOrderById db orderId).map
            (DatabaseService.updOne orderId st now) := by
    unfold DatabaseService.updateOrderStatus DatabaseService.getOrderById
    exact find_map_updOne orderId st now db.orders
  constructor
  · intro hnone
    have hmap := map_updOne_of_not_found orderId st now db.orders
      (by simpa [DatabaseService.getOrderById] using hnone)
    unfold OrderController.updateOrderStatus
    rw [updateOrderStatusSchema_asString]
    simp only [hadmin, Bool.not_true, Bool.false_eq_true, if_false]
    rw [hfetch, hnone]
    simp only [Option.map_none']
    unfold DatabaseService.updateOrderStatus
    simp [hmap]
  · intro o hsome
    have hsome' : db.orders.find? (fun x => x.id == orderId) = some o := hsome
    have hid : (o.id == orderId) = true := by simpa using List.find?_some hsome'
    refine ⟨DatabaseService.updOne orderId st now o, ?_⟩
    have hupd : DatabaseService.updOne orderId st now o
        = { o with status := st, updatedAt := now } := by
      unfold DatabaseService.updOne
      rw [hid]
      simp
    have hget : DatabaseService.getOrderById
        (DatabaseService.updateOrderStatus db orderId st now).1 orderId
        = some (DatabaseService.updOne orderId st now o) := by
      unfold DatabaseService.updateOrderStatus DatabaseService.getOrderById
      rw [find_map_updOne]
      show (db.orders.find? (fun x => x.id == orderId)).map _ = _
      rw [hsome']
      rfl
    unfold OrderController.updateOrderStatus
    rw [updateOrderStatusSchema_asString]
    simp only [hadmin, Bool.not_true, Bool.false_eq_true, if_false]
    rw [hfetch, hsome]
    simp only [Option.map_some']
    exact ⟨by simp, by rw [hupd], by rw [hupd], by rw [hupd], by rw [hupd], hget⟩

/-- Witness for C8: an admin setting the status of an unknown order id
gets 404 with the store unchanged. -/
theorem updateOrderStatus_admin_witness :
    OrderController.updateOrderStatus sampleDb (some adminUser) "absent"
        (some OrderStatus.shipped.asString) 9 "t" true
      = (sampleDb, [], Except.error ⟨404, "Order not found"⟩) :=
  (updateOrderStatus_admin_any_transition sampleDb adminUser "absent"
    OrderStatus.shipped 9 "t" true (by decide)).1 (by decide)

/-- Every order is preserved by a no-op on the store. -/
theorem itemsPreserved_self (db : DbState) : itemsPreserved db db = true := by
  unfold itemsPreserved
  rw [List.all_eq_true]
  intro o ho
  rw [List.any_eq_true]
  exact ⟨o, ho, by simp⟩

/-- Appending rows preserves every existing order untouched. -/
theorem itemsPreserved_append (db : DbState) (l : List Order) :
    itemsPreserved db ⟨db.orders ++ l⟩ = true := by
  unfold itemsPreserved
  rw [List.all_eq_true]
  intro o ho
  rw [List.any_eq_true]
  exact ⟨o, List.mem_append_left _ ho, by simp⟩

/-- The status row-update preserves every order's items, money fields,
addresses, customer fields, number and creation time. -/
theorem itemsPreserved_map_updOne (db : DbState) (orderId : String)
    (st : OrderStatus) (now : Nat) :
    itemsPreserved db ⟨db.orders.map (DatabaseService.updOne orderId st now)⟩ = true := by
  unfold itemsPreserved
  rw [List.all_eq_true]
  intro o ho
  rw [List.any_eq_true]
  refine ⟨DatabaseService.updOne orderId st now o, List.mem_map_of_mem _ ho, ?_⟩
  unfold DatabaseService.updOne
  split <;> simp

/-- The store state after a create request is either unchanged or the old
table with rows appended. -/
theorem createOrder_state_shape (db : DbState) (user : Option User)
    (body : RawBody) (env : CreateEnv) (senderOk : Bool) :
    (OrderController.createOrder db user body env senderOk).1 = db
    ∨ ∃ l, (OrderController.createOrder db user body env senderOk).1 = ⟨db.orders ++ l⟩ := by
  unfold OrderController.createOrder
  repeat' split
  any_goals (left; rfl)
  rename_i db' created heq
  unfold DatabaseService.createOrder at heq
  split at heq
  · cases heq
  · injection heq with h
    rw [Prod.mk.injEq] at h
    obtain ⟨h1, h2⟩ := h
    right
    rw [← h1]
    exact ⟨_, rfl⟩

/-- The store state after a set-status request is either unchanged or the
old table mapped through one row update. -/
theorem updateOrderStatus_state_shape (db : DbState) (user : Option User)
    (orderId : String) (rawStatus : Option String) (now : Nat) (isoNow : String)
    (senderOk : Bool) :
    (OrderController.updateOrderStatus db user orderId rawStatus now isoNow senderOk).1 = db
    ∨ ∃ st, (OrderController.updateOrderStatus db user orderId rawStatus now isoNow senderOk).1
        = ⟨db.orders.map (DatabaseService.updOne orderId st now)⟩ := by
  unfold OrderController.updateOrderStatus
  repeat' split
  any_goals (left; rfl)
  all_goals (right; exact ⟨_, rfl⟩)

/-- The store state after a cancel request is either unchanged or the old
table mapped through the row update to `cancelled`. -/
theorem cancelOrder_state_shape (db : DbState) (user : Option User)
    (orderId : String) (now : Nat) (isoNow : String) (senderOk : Bool) :
    (OrderController.cancelOrder db user orderId now isoNow senderOk).1 = db
    ∨ (OrderController.cancelOrder db user orderId now isoNow senderOk).1
        = ⟨db.orders.map (DatabaseService.updOne orderId OrderStatus.cancelled now)⟩ := by
  unfold OrderController.cancelOrder
  repeat' split
  any_goals (left; rfl)
  all_goals (right; rfl)

/-- Claim C10: the status row-update rewrites only the targeted row's
`status` and `updatedAt` columns — id, items, total, currency, addresses,
customer fields, number and creation time are untouched, a row with a
different id is entirely unchanged, and the update is exactly a row-wise
map over the table; moreover every request the service routes (create,
set-status, cancel; the two GET routes are pure reads) preserves every
pre-existing order's items and immutable fields. -/
theorem updateOrderStatus_frame_and_items_immutable :
    (∀ orderId st now (o : Order),
        (DatabaseService.updOne orderId st now o).id = o.id
      ∧ (DatabaseService.updOne orderId st now o).orderItems = o.orderItems
      ∧ (DatabaseService.updOne orderId st now o).totalAmount = o.totalAmount
      ∧ (DatabaseService.updOne orderId st now o).currency = o.currency
      ∧ (DatabaseService.updOne orderId st now o).shippingAddress = o.shippingAddress
      ∧ (DatabaseService.updOne orderId st now o).billingAddress = o.billingAddress
      ∧ (DatabaseService.updOne orderId st now o).customerId = o.customerId
      ∧ (DatabaseService.updOne orderId st now o).customerEmail = o.customerEmail
      ∧ (DatabaseService.updOne orderId st now o).orderNumber = o.orderNumber
      ∧ (DatabaseService.updOne orderId st now o).createdAt = o.createdAt
      ∧ (o.id ≠ orderId → DatabaseService.updOne orderId st now o = o))
    ∧ (∀ db orderId st now,
        (DatabaseService.updateOrderStatus db orderId st now).1.orders
          = db.orders.map (DatabaseService.updOne orderId st now))
    ∧ (∀ db op, itemsPreserved db (applyOp db op) = true) := by
  refine ⟨?_, fun _ _ _ _ => rfl, ?_⟩
  · intro orderId st now o
    unfold DatabaseService.updOne
    split
    · refine ⟨rfl, rfl, rfl, rfl, rfl, rfl, rfl, rfl, rfl, rfl, fun hne => ?_⟩
      rename_i hx
      exact absurd (by simpa using hx) hne
    · exact ⟨rfl, rfl, rfl, rfl, rfl, rfl, rfl, rfl, rfl, rfl, fun _ => rfl⟩
  · intro db op
    cases op with
    | create user body env senderOk =>
      rcases createOrder_state_shape db user body env senderOk with h | ⟨l, h⟩
      · show itemsPreserved db (OrderController.createOrder db user body env senderOk).1 = true
        rw [h]; exact itemsPreserved_self db
      · show itemsPreserved db (OrderController.createOrder db user body env senderOk).1 = true
        rw [h]; exact itemsPreserved_append db l
    | setStatus user orderId rawStatus now isoNow senderOk =>
      rcases updateOrderStatus_state_shape db user orderId rawStatus now isoNow senderOk
        with h | ⟨st, h⟩
      · show itemsPreserved db
          (OrderController.updateOrderStatus db user orderId rawStatus now isoNow senderOk).1 = true
        rw [h]; exact itemsPreserved_self db
      · show itemsPreserved db
          (OrderController.updateOrderStatus db user orderId rawStatus now isoNow senderOk).1 = true
        rw [h]; exact itemsPreserved_map_updOne db orderId st now
    | cancel user orderId now isoNow senderOk =>
      rcases cancelOrder_state_shape db user orderId now isoNow senderOk with h | h
      · show itemsPreserved db
          (OrderController.cancelOrder db user orderId now isoNow senderOk).1 = true
        rw [h]; exact itemsPreserved_self db
      · show itemsPreserved db
          (OrderController.cancelOrder db user orderId now isoNow senderOk).1 = true
        rw [h]; exact itemsPreserved_map_updOne db orderId OrderStatus.cancelled now

/-- Witness for C10: a concrete cancel by the owner preserves the items
and immutable fields of every pre-existing order. -/
theorem items_immutable_witness :
    itemsPreserved sampleDb (applyOp sampleDb (ClientOp.cancel (some userB) "ord-1" 9 "t" true)) = true :=
  updateOrderStatus_frame_and_items_immutable.2.2 sampleDb
    (ClientOp.cancel (some userB) "ord-1" 9 "t" true)

/-- The row update never changes the order number. -/
theorem DatabaseService.updOne_orderNumber (orderId : String) (st : OrderStatus)
    (now : Nat) (o : Order) :
    (DatabaseService.updOne orderId st now o).orderNumber = o.orderNumber := by
  unfold DatabaseService.updOne
  split <;> rfl

/-- A committed store create preserves pairwise-distinct order numbers:
the insert succeeds only after the `UNIQUE` constraint check. -/
theorem dbCreate_preserves_unique (db : DbState) (newId : String) (now : Nat)
    (data : NewOrderData) (db' : DbState) (created : Order)
    (h : DatabaseService.createOrder db newId now data = Except.ok (db', created))
    (hu : ordersUnique db) : ordersUnique db' := by
  unfold DatabaseService.createOrder at h
  split at h
  · cases h
  · rename_i hany
    injection h with hp
    rw [Prod.mk.injEq] at hp
    obtain ⟨h1, h2⟩ := hp
    rw [← h1]
    unfold ordersUnique
    rw [List.pairwise_append]
    refine ⟨hu, List.pairwise_singleton _ _, ?_⟩
    intro a ha b hb
    rw [List.mem_singleton] at hb
    subst hb
    show a.orderNumber ≠ data.orderNumber
    intro hEq
    exact hany (List.any_eq_true.mpr ⟨a, ha, by simp [hEq]⟩)

/-- Every routed mutating request preserves pairwise-distinct order
numbers. -/
theorem applyOp_preserves_unique (db : DbState) (op : ClientOp)
    (hu : ordersUnique db) : ordersUnique (applyOp db op) := by
  cases op with
  | create user body env senderOk =>
    show ordersUnique (OrderController.createOrder db user body env senderOk).1
    unfold OrderController.createOrder
    repeat' split
    any_goals exact hu
    rename_i db' created heq
    exact dbCreate_preserves_unique db env.orderId env.now _ db' created heq hu
  | setStatus user orderId rawStatus now isoNow senderOk =>
    show ordersUnique (OrderController.updateOrderStatus db user orderId rawStatus now isoNow senderOk).1
    rcases updateOrderStatus_state_shape db user orderId rawStatus now isoNow senderOk
      with h | ⟨st, h⟩
    · rw [h]; exact hu
    · rw [h]
      exact hu.map _ (fun a b hab => by
        rw [DatabaseService.updOne_orderNumber, DatabaseService.updOne_orderNumber]
        exact hab)
  | cancel user orderId now isoNow senderOk =>
    show ordersUnique (OrderController.cancelOrder db user orderId now isoNow senderOk).1
    rcases cancelOrder_state_shape db user orderId now isoNow senderOk with h | h
    · rw [h]; exact hu
    · rw [h]
      exact hu.map _ (fun a b hab => by
        rw [DatabaseService.updOne_orderNumber, DatabaseService.updOne_orderNumber]
        exact hab)

/-- Uniqueness is preserved along any serialised request sequence. -/
theorem runOps_preserves_unique (ops : List ClientOp) :
    ∀ db, ordersUnique db → ordersUnique (runOps db ops) := by
  induction ops with
  | nil => exact fun db hu => hu
  | cons op rest ih => exact fun db hu => ih _ (applyOp_preserves_unique db op hu)

/-- Claim C9: in every store state reachable by any serialised sequence of
requests from the empty store, the order numbers of distinct orders are
pairwise different — the `UNIQUE` constraint makes one of two creations
generating the same number fail, so two persisted orders never collide. -/
theorem orderNumber_unique_invariant (ops : List ClientOp) :
    ordersUnique (runOps ⟨[]⟩ ops) :=
  runOps_preserves_unique ops ⟨[]⟩ List.Pairwise.nil

/-- Membership through insertion into the descending-sorted list. -/
theorem mem_insertDescByCreatedAt {x o : Order} {l : List Order} :
    x ∈ insertDescByCreatedAt o l ↔ x = o ∨ x ∈ l := by
  induction l with
  | nil => simp [insertDescByCreatedAt]
  | cons y ys ih =>
    unfold insertDescByCreatedAt
    split
    · simp only [List.mem_cons, ih]
      tauto
    · simp [List.mem_cons]

/-- Sorting by creation time returns exactly the input's members. -/
theorem mem_sortDescByCreatedAt {x : Order} {l : List Order} :
    x ∈ sortDescByCreatedAt l ↔ x ∈ l := by
  induction l with
  | nil => simp [sortDescByCreatedAt]
  | cons y ys ih =>
    unfold sortDescByCreatedAt
    rw [mem_insertDescByCreatedAt]
    simp [ih]

/-- Insertion keeps the list sorted by `createdAt` descending. -/
theorem pairwise_insertDescByCreatedAt {o : Order} {l : List Order}
    (h : l.Pairwise (fun a b => b.createdAt ≤ a.createdAt)) :
    (insertDescByCreatedAt o l).Pairwise (fun a b => b.createdAt ≤ a.createdAt) := by
  induction l with
  | nil => simp [insertDescByCreatedAt]
  | cons x xs ih =>
    rw [List.pairwise_cons] at h
    obtain ⟨hx, hxs⟩ := h
    unfold insertDescByCreatedAt
    split
    · rename_i hle
      rw [List.pairwise_cons]
      refine ⟨?_, ih hxs⟩
      intro b hb
      rcases mem_insertDescByCreatedAt.mp hb with rfl | hbxs
      · exact hle
      · exact hx b hbxs
    · rename_i hgt
      push_neg at hgt
      rw [List.pairwise_cons]
      refine ⟨?_, List.pairwise_cons.mpr ⟨hx, hxs⟩⟩
      intro b hb
      rcases List.mem_cons.mp hb with rfl | hbxs
      · exact Nat.le_of_lt hgt
      · exact le_trans (hx b hbxs) (Nat.le_of_lt hgt)

/-- The embedded `ORDER BY createdAt DESC` yields a descending-sorted
list. -/
theorem pairwise_sortDescByCreatedAt (l : List Order) :
    (sortDescByCreatedAt l).Pairwise (fun a b => b.createdAt ≤ a.createdAt) := by
  induction l with
  | nil => exact List.Pairwise.nil
  | cons x xs ih => exact pairwise_insertDescByCreatedAt ih

/-- Claim C5: a successful list-orders response contains only orders of
the caller's own customer id, sorted by creation time descending
(newest-first), together with the count of all of the caller's orders in
the store. -/
theorem getOrders_only_own_newest_first (db : DbState) (u : User)
    (rawPage rawPageSize : Option Rat) (res : ListResult)
    (h : OrderController.getOrders db (some u) rawPage rawPageSize = Except.ok res) :
    (∀ o ∈ res.orders, o.customerId = u.id)
    ∧ res.orders.Pairwise (fun a b => b.createdAt ≤ a.createdAt)
    ∧ res.totalCount = (db.orders.filter (fun o => o.customerId == u.id)).length := by
  unfold OrderController.getOrders at h
  cases hq : queryParamsSchema rawPage rawPageSize with
  | error m => rw [hq] at h; cases h
  | ok pair =>
    obtain ⟨p, ps⟩ := pair
    rw [hq] at h
    split at h
    · cases h
    · rename_i page pageSize heq
      injection heq with heq
      rw [Prod.mk.injEq] at heq
      obtain ⟨hp, hps⟩ := heq
      subst hp
      subst hps
      split at h
      · rename_i heq2
        cases heq2
      · rename_i u2 heq2
        injection heq2 with heq2
        subst heq2
        split at h
        · cases h
        · injection h with h
          subst h
          refine ⟨?_, ?_, rfl⟩
          · intro o ho
            simp only [DatabaseService.getOrdersByCustomer] at ho
            have h1 : o ∈ (sortDescByCreatedAt
                (db.orders.filter (fun x => x.customerId == u.id))).drop ((p - 1) * ps) :=
              List.mem_of_mem_take ho
            have h2 := List.mem_of_mem_drop h1
            have h3 := mem_sortDescByCreatedAt.mp h2
            have h4 := List.mem_filter.mp h3
            exact eq_of_beq h4.2
          · show ((sortDescByCreatedAt
                (db.orders.filter (fun x => x.customerId == u.id))).drop
                  ((p - 1) * ps)).take ps |>.Pairwise _
            exact (pairwise_sortDescByCreatedAt _).sublist
              ((List.take_sublist _ _).trans (List.drop_sublist _ _))

/-- Witness for C5 at a concrete store and caller: the count of `cust-b`
orders returned equals the store's matching count. -/
theorem getOrders_only_own_witness :
    (⟨[sampleOrder], 1, 10, 1, 1⟩ : ListResult).totalCount
      = (sampleDb.orders.filter (fun o => o.customerId == userB.id)).length :=
  (getOrders_only_own_newest_first sampleDb userB none none ⟨[sampleOrder], 1, 10, 1, 1⟩
    rfl).2.2

/-- The `NewOrderData` record `OrderController.createOrder` hands to the
store for caller `u`, environment `env` and validated body `v`. -/
def requestOrderData (u : User) (env : CreateEnv) (v : VBody) : NewOrderData :=
  ⟨u.id, u.email, makeOrderNumber env.nowMs env.randSuffix, OrderStatus.pending,
    sumTotalPrices (buildOrderItems env.itemIds 0 v.orderItems), v.currency,
    v.shippingAddress, v.billingAddress, buildOrderItems env.itemIds 0 v.orderItems⟩

/-- A store create with a non-colliding order number and id commits and
returns the stored order. -/
theorem dbCreate_ok_of_fresh (db : DbState) (newId : String) (now : Nat)
    (data : NewOrderData)
    (hfresh : db.orders.any
        (fun o => o.orderNumber == data.orderNumber || o.id == newId) = false) :
    DatabaseService.createOrder db newId now data
      = Except.ok (⟨db.orders ++ [DatabaseService.storedOrder newId now data]⟩,
          DatabaseService.storedOrder newId now data) := by
  unfold DatabaseService.createOrder
  rw [hfresh]
  simp

/-- A create request with a schema-valid body, a caller with nonempty id
and email, and fresh generated identifiers responds with the stored order
(HTTP 201). -/
theorem createOrder_success_result (db : DbState) (u : User) (body : RawBody)
    (env : CreateEnv) (senderOk : Bool) (v : VBody)
    (hval : createOrderSchema body = Except.ok v)
    (hid : u.id ≠ "") (hem : u.email ≠ "")
    (hfresh : db.orders.any (fun o =>
        o.orderNumber == makeOrderNumber env.nowMs env.randSuffix
          || o.id == env.orderId) = false) :
    (OrderController.createOrder db (some u) body env senderOk).2.2
      = Except.ok (DatabaseService.storedOrder env.orderId env.now
          (requestOrderData u env v)) := by
  have hcond : ¬ (u.id = "" ∨ u.email = "") := by tauto
  have hfresh' : db.orders.any (fun o =>
      o.orderNumber == (requestOrderData u env v).orderNumber
        || o.id == env.orderId) = false := hfresh
  have hdb := dbCreate_ok_of_fresh db env.orderId env.now (requestOrderData u env v) hfresh'
  simp only [requestOrderData] at hdb
  simp only [OrderController.createOrder, hval]
  rw [if_neg hcond]
  rw [hdb]
  simp only [requestOrderData]

/-- A body with exactly the fields the specification lists for
`POST /orders` — shipping and billing address, optional currency, one
valid item — but without `customerId`/`customerEmail` keys. -/
def specShapedBody : RawBody :=
  { customerId := none
    customerEmail := none
    shippingAddress := some "1 Main St"
    billingAddress := some "1 Main St"
    currency := none
    orderItems := some [⟨some "p-9", some "Thing", some 1, some 10⟩] }

/-- Environment inputs for the C7 scenarios. -/
def c7Env : CreateEnv := ⟨77, "QQQQQ", fun i => "itm-" ++ toString i, "ord-c7", 3, "ts7"⟩

/-- Counterexample to claim C7 as stated: a request body consisting of
`shippingAddress`, `billingAddress`, optional `currency` and a valid
non-empty `orderItems` list — the exact shape the claim describes — does
not pass validation, because `createOrderSchema` additionally declares
`customerId` and `customerEmail` as required; the request is rejected
with 400 rather than created with 201. -/
theorem create_spec_shaped_body_rejected :
    OrderController.createOrder ⟨[]⟩ (some userA) specShapedBody c7Env true
      = (⟨[]⟩, [], Except.error ⟨400, "customerId is required"⟩) := rfl

/-- Claim C7 (amended): a `POST /orders` body passing `createOrderSchema`
— which, beyond the fields the claim lists, must also contain
`customerId` and a well-formed `customerEmail`, both ignored for
persistence — is created with 201 for any authenticated caller with
nonempty id and email (given non-colliding generated identifiers), and
the persisted customer id and email are taken from the verified
identity, never from the payload. -/
theorem create_valid_body_created_with_identity (db : DbState) (u : User)
    (body : RawBody) (env : CreateEnv) (senderOk : Bool) (v : VBody)
    (hval : createOrderSchema body = Except.ok v)
    (hid : u.id ≠ "") (hem : u.email ≠ "")
    (hfresh : db.orders.any (fun o =>
        o.orderNumber == makeOrderNumber env.nowMs env.randSuffix
          || o.id == env.orderId) = false) :
    ∃ o, (OrderController.createOrder db (some u) body env senderOk).2.2 = Except.ok o
      ∧ o.customerId = u.id ∧ o.customerEmail = u.email
      ∧ o.status = OrderStatus.pending ∧ o.id = env.orderId :=
  ⟨DatabaseService.storedOrder env.orderId env.now (requestOrderData u env v),
    createOrder_success_result db u body env senderOk v hval hid hem hfresh,
    rfl, rfl, rfl, rfl⟩

/-- Witness for C7 (amended) at concrete inputs: the creation succeeds
and the persisted customer id/email are `userB`'s token values, not the
body's `cust-x`/`x@shop.co`. -/
theorem create_valid_body_witness :
    ((OrderController.createOrder ⟨[]⟩ (some userB) okBody c7Env true).2.2).map
        (fun o => (o.customerId, o.customerEmail, o.status, o.id))
      = Except.ok ("cust-b", "b@shop.co", OrderStatus.pending, "ord-c7") := by
  obtain ⟨o, ho, h1, h2, h3, h4⟩ := create_valid_body_created_with_identity
    ⟨[]⟩ userB okBody c7Env true
    ⟨"cust-x", "x@shop.co", "2 C St", "2 C St", "USD", [⟨"p-2", "Gadget", 2, 10⟩]⟩
    rfl (by decide) (by decide) rfl
  rw [ho]
  simp [Except.map, h1, h2, h3, h4, userB, c7Env]

/-- A money value exactly representable with two decimal places
(`DECIMAL(10,2)` loses nothing on it). -/
def TwoDecimal (q : Rat) : Prop := ∃ k : Int, q * 100 = (k : Rat)

/-- Two-decimal values are closed under addition. -/
theorem TwoDecimal.add {a b : Rat} (ha : TwoDecimal a) (hb : TwoDecimal b) :
    TwoDecimal (a + b) := by
  obtain ⟨j, hj⟩ := ha
  obtain ⟨k, hk⟩ := hb
  refine ⟨j + k, ?_⟩
  rw [add_mul, hj, hk]
  push_cast
  ring

/-- Two-decimal values are closed under scaling by a natural quantity. -/
theorem TwoDecimal.natMul (n : Nat) {a : Rat} (ha : TwoDecimal a) :
    TwoDecimal ((n : Rat) * a) := by
  obtain ⟨j, hj⟩ := ha
  refine ⟨(n : Int) * j, ?_⟩
  rw [mul_assoc, hj]
  push_cast
  ring

/-- The `DECIMAL(10,2)` conversion is the identity on two-decimal
values. -/
theorem sqlDecimal2_eq_self {q : Rat} (h : TwoDecimal q) : sqlDecimal2 q = q := by
  obtain ⟨k, hk⟩ := h
  have hq : q = (k : Rat) / 100 := by
    field_simp
    linarith [hk]
  unfold sqlDecimal2
  rw [hk]
  have hfl : Int.floor ((k : Rat) + 1 / 2) = k := by
    rw [add_comm, Int.floor_add_int]
    norm_num
  rw [hfl, ← hq]

/-- Every item built by the controller descends from a validated request
item, with the same quantity and unit price and the computed line
total. -/
theorem mem_buildOrderItems {ids : Nat → String} :
    ∀ {i : Nat} {l : List VItem} {it : OrderItem}, it ∈ buildOrderItems ids i l →
      ∃ vit ∈ l, it.quantity = vit.quantity ∧ it.unitPrice = vit.unitPrice
        ∧ it.totalPrice = (vit.quantity : Rat) * vit.unitPrice := by
  intro i l
  induction l generalizing i with
  | nil => intro it hit; cases hit
  | cons x xs ih =>
    intro it hit
    unfold buildOrderItems at hit
    rcases List.mem_cons.mp hit with rfl | h
    · exact ⟨x, List.mem_cons_self _ _, rfl, rfl, rfl⟩
    · obtain ⟨vit, hv, h1, h2, h3⟩ := ih h
      exact ⟨vit, List.mem_cons_of_mem _ hv, h1, h2, h3⟩

/-- When every line total is quantity times unit price, the reduce over
`totalPrice` equals the quantity-times-price summation. -/
theorem foldl_totalPrice_congr : ∀ (l : List OrderItem),
    (∀ it ∈ l, it.totalPrice = (it.quantity : Rat) * it.unitPrice) →
    ∀ a : Rat, l.foldl (fun s it => s + it.totalPrice) a
      = l.foldl (fun s it => s + (it.quantity : Rat) * it.unitPrice) a
  | [], _, a => rfl
  | x :: xs, h, a => by
    rw [List.foldl_cons, List.foldl_cons, h x (List.mem_cons_self _ _)]
    exact foldl_totalPrice_congr xs (fun it hit => h it (List.mem_cons_of_mem _ hit)) _

/-- For two-decimal unit prices, the quantity-times-price summation is
unchanged by the store's per-item `DECIMAL(10,2)` conversion. -/
theorem foldl_storeItem_congr (newId : String) : ∀ (l : List OrderItem),
    (∀ it ∈ l, TwoDecimal it.unitPrice) →
    ∀ a : Rat, (l.map (DatabaseService.storeItem newId)).foldl
        (fun s it => s + (it.quantity : Rat) * it.unitPrice) a
      = l.foldl (fun s it => s + (it.quantity : Rat) * it.unitPrice) a
  | [], _, a => rfl
  | x :: xs, h, a => by
    rw [List.map_cons, List.foldl_cons, List.foldl_cons]
    have hx : ((DatabaseService.storeItem newId x).quantity : Rat)
        * (DatabaseService.storeItem newId x).unitPrice
        = (x.quantity : Rat) * x.unitPrice := by
      show (x.quantity : Rat) * sqlDecimal2 x.unitPrice = _
      rw [sqlDecimal2_eq_self (h x (List.mem_cons_self _ _))]
    rw [hx]
    exact foldl_storeItem_congr newId xs (fun it hit => h it (List.mem_cons_of_mem _ hit)) _

/-- The quantity-times-price summation of two-decimal prices is
two-decimal. -/
theorem foldl_line_twoDecimal : ∀ (l : List OrderItem),
    (∀ it ∈ l, TwoDecimal it.unitPrice) →
    ∀ a : Rat, TwoDecimal a →
    TwoDecimal (l.foldl (fun s it => s + (it.quantity : Rat) * it.unitPrice) a)
  | [], _, _, ha => ha
  | x :: xs, h, a, ha => by
    rw [List.foldl_cons]
    exact foldl_line_twoDecimal xs (fun it hit => h it (List.mem_cons_of_mem _ hit)) _
      (ha.add (TwoDecimal.natMul x.quantity (h x (List.mem_cons_self _ _))))

/-- A request with two line items priced 0.004 (a valid price for
`createOrderSchema`, which bounds prices only by positivity). -/
def centsFractionBody : RawBody :=
  { customerId := some "cust-x"
    customerEmail := some "x@shop.co"
    shippingAddress := some "3 D St"
    billingAddress := some "3 D St"
    currency := none
    orderItems := some [⟨some "p-3", some "Bolt", some 1, some (1 / 250)⟩,
      ⟨some "p-4", some "Nut", some 1, some (1 / 250)⟩] }

/-- Environment inputs for the C1 counterexample. -/
def c1Env : CreateEnv := ⟨55, "RRRRR", fun i => "bit-" ++ toString i, "ord-c1", 4, "ts4"⟩

/-- The claim-C1 equation evaluated on a create response: does the
returned total equal the quantity-times-price sum over the returned
items? -/
def totalMatchesItemSum : Except ApiError Order → Bool
  | Except.ok o => o.totalAmount == sumLineTotals o.orderItems
  | Except.error _ => true

/-- Counterexample to claim C1 as stated: for the two 0.004-priced items
the created order is returned with `totalAmount = 0.01` (the
`DECIMAL(10,2)` rounding of the exact sum 0.008) while its persisted
items carry `unitPrice = 0.00`, so the returned total differs from
`Σ(quantity × unitPrice)` and the stored result is not decimal-exact.
The refutation is independent of binary-float drift: it already holds
under the exact-arithmetic idealisation of the controller. -/
theorem createOrder_total_drifts_from_item_sum :
    totalMatchesItemSum (OrderController.createOrder ⟨[]⟩ (some userB)
        centsFractionBody c1Env true).2.2 = false := by
  have hval : createOrderSchema centsFractionBody = Except.ok
      ⟨"cust-x", "x@shop.co", "3 D St", "3 D St", "USD",
        [⟨"p-3", "Bolt", 1, 1 / 250⟩, ⟨"p-4", "Nut", 1, 1 / 250⟩]⟩ := by
    have he : isEmailLike "x@shop.co" = true := by decide
    norm_num [createOrderSchema, validateOrderItems, validateOrderItem,
      centsFractionBody, he, (by decide : ("USD" : String).length = 3)]
  have h := createOrder_success_result ⟨[]⟩ userB centsFractionBody c1Env true
    ⟨"cust-x", "x@shop.co", "3 D St", "3 D St", "USD",
      [⟨"p-3", "Bolt", 1, 1 / 250⟩, ⟨"p-4", "Nut", 1, 1 / 250⟩]⟩
    hval (by decide) (by decide) rfl
  rw [h]
  show ((DatabaseService.storedOrder c1Env.orderId c1Env.now _).totalAmount
      == sumLineTotals (DatabaseService.storedOrder c1Env.orderId c1Env.now _).orderItems)
    = false
  norm_num [DatabaseService.storedOrder, DatabaseService.storeItem, requestOrderData,
    sqlDecimal2, sumTotalPrices, sumLineTotals, buildOrderItems, c1Env]

/-- Claim C1 (amended): the returned `totalAmount` is the `DECIMAL(10,2)`
rounding of the exact sum of the request's line totals; whenever every
unit price in the validated request is an exact two-decimal amount, the
rounding is the identity and the returned total equals
`Σ(quantity × unitPrice)` over the returned order's items exactly. -/
theorem createOrder_total_eq_sum_for_twoDecimal_prices (db : DbState) (u : User)
    (body : RawBody) (env : CreateEnv) (senderOk : Bool) (v : VBody)
    (hval : createOrderSchema body = Except.ok v)
    (hid : u.id ≠ "") (hem : u.email ≠ "")
    (hfresh : db.orders.any (fun o =>
        o.orderNumber == makeOrderNumber env.nowMs env.randSuffix
          || o.id == env.orderId) = false)
    (h2 : ∀ it ∈ v.orderItems, TwoDecimal it.unitPrice) :
    ∃ o, (OrderController.createOrder db (some u) body env senderOk).2.2 = Except.ok o
      ∧ o.totalAmount = sqlDecimal2 (sumTotalPrices (buildOrderItems env.itemIds 0 v.orderItems))
      ∧ o.totalAmount = sumLineTotals o.orderItems := by
  refine ⟨_, createOrder_success_result db u body env senderOk v hval hid hem hfresh,
    rfl, ?_⟩
  have hitems : ∀ it ∈ buildOrderItems env.itemIds 0 v.orderItems,
      TwoDecimal it.unitPrice := by
    intro it hit
    obtain ⟨vit, hv, hq, hp, ht⟩ := mem_buildOrderItems hit
    rw [hp]
    exact h2 vit hv
  have htp : ∀ it ∈ buildOrderItems env.itemIds 0 v.orderItems,
      it.totalPrice = (it.quantity : Rat) * it.unitPrice := by
    intro it hit
    obtain ⟨vit, hv, hq, hp, ht⟩ := mem_buildOrderItems hit
    rw [ht, hq, hp]
  show sqlDecimal2 (sumTotalPrices (buildOrderItems env.itemIds 0 v.orderItems))
    = sumLineTotals ((buildOrderItems env.itemIds 0 v.orderItems).map
        (DatabaseService.storeItem env.orderId))
  unfold sumTotalPrices sumLineTotals
  rw [foldl_totalPrice_congr _ htp]
  rw [foldl_storeItem_congr env.orderId _ hitems]
  exact sqlDecimal2_eq_self (foldl_line_twoDecimal _ hitems 0 ⟨0, by norm_num⟩)

/-- Witness for C1 (amended): for the two-decimal price 10.00 the created
order's total equals its item sum exactly. -/
theorem createOrder_total_eq_sum_witness :
    ((OrderController.createOrder ⟨[]⟩ (some userB) okBody okEnv true).2.2).map
        (fun o => decide (o.totalAmount = sumLineTotals o.orderItems))
      = Except.ok true := by
  obtain ⟨o, ho, hta, heq⟩ := createOrder_total_eq_sum_for_twoDecimal_prices
    ⟨[]⟩ userB okBody okEnv true
    ⟨"cust-x", "x@shop.co", "2 C St", "2 C St", "USD", [⟨"p-2", "Gadget", 2, 10⟩]⟩
    rfl (by decide) (by decide) rfl
    (by
      intro it hit
      rw [List.mem_singleton] at hit
      subst hit
      exact ⟨1000, by norm_num⟩)
  rw [ho]
  show Except.ok (decide (o.totalAmount = sumLineTotals o.orderItems)) = Except.ok true
  rw [decide_eq_true heq]
